import Mathlib

/-!
Verification of the EDI 837 decoder and statistics aggregator
(`edi_parser.py`, class `EDI837Parser`) against its natural-language
specification.  The Python source is shallowly embedded: the tokenizer,
the segment classifier (`_extract_structured_data` and the `_parse_*`
segment rules), the stateful `parse_file` entry point and the
`get_data_summary` aggregator are translated into executable Lean
definitions.  Python's mutable `parsed_data` dictionary becomes an
explicit record threaded through a fold; the `current_transaction` /
`current_claim` cursors (references to the most recently appended
dictionary) become `Option Nat` indices into the corresponding lists;
float arithmetic on monetary amounts is modelled exactly by rationals.
-/

namespace EDI

/-! ## Python string primitives

The source uses `str.strip()`, `str.replace(c, '')`, `in`, `str.split(sep)`
and `str.split(sep, 1)`.  They are modelled here by structurally recursive
functions over `List Char` so that every theorem can be evaluated on
concrete inputs by the kernel. -/

/-- Characters removed by Python `str.strip()` (the ASCII whitespace set). -/
def pySpace (c : Char) : Bool :=
  c == ' ' || c == '\t' || c == '\n' || c == '\r' || c == '\x0b' || c == '\x0c'

/-- Strip `pySpace` characters from both ends of a character list. -/
def stripList (cs : List Char) : List Char :=
  ((cs.dropWhile pySpace).reverse.dropWhile pySpace).reverse

/-- Python `s.strip()`. -/
def pyStrip (s : String) : String := ⟨stripList s.toList⟩

/-- Python `s.replace(c, '')` for a one-character needle: drop every
occurrence of `c`. -/
def removeChar (c : Char) (s : String) : String :=
  ⟨s.toList.filter (fun d => d ≠ c)⟩

/-- Python `c in s` for a one-character needle. -/
def pyContains (s : String) (c : Char) : Bool := s.toList.contains c

/-- Python `s.split(sep)` for a one-character separator: keeps empty
pieces, never returns an empty list. -/
def splitOnChar (sep : Char) : List Char → List (List Char)
  | [] => [[]]
  | c :: cs =>
    let r := splitOnChar sep cs
    if c = sep then [] :: r
    else
      match r with
      | [] => [[c]]
      | h :: t => (c :: h) :: t

/-- Python `s.split(sep)` on strings. -/
def pySplit (sep : Char) (s : String) : List String :=
  (splitOnChar sep s.toList).map (fun cs => ⟨cs⟩)

/-- Python `s.split(sep, 1)` (used under a `sep in s` guard in the source):
the part before the first occurrence of `sep` and everything after it. -/
def pySplitOnce (sep : Char) (s : String) : String × String :=
  (⟨s.toList.takeWhile (fun c => c ≠ sep)⟩,
   ⟨(s.toList.dropWhile (fun c => c ≠ sep)).tail⟩)

/-! ## Tokenizer (`parse_file` lines 161–174, `_parse_segment`) -/

/-- One tokenized EDI segment (the `EDISegment` dataclass). -/
structure EDISegment where
  tag : String
  elements : List String
  raw : String
deriving DecidableEq

/-- Normalization done at the top of `parse_file`:
`file_content.strip().replace('\n', '').replace('\r', '')`. -/
def normalizeContent (s : String) : String :=
  removeChar '\r' (removeChar '\n' (pyStrip s))

/-- Element-separator detection of `_parse_segment`: `*` unless the raw
segment has no `*` but does have a `|`. -/
def chooseElementSep (raw : String) : Char :=
  if !pyContains raw '*' && pyContains raw '|' then '|' else '*'

/-- `_parse_segment`: split the raw segment on its element separator; the
first token is the tag, the rest are the elements. -/
def parseSegment (raw : String) : EDISegment :=
  let parts := pySplit (chooseElementSep raw) raw
  { tag := parts.headD "", elements := parts.tail, raw := raw }

/-- Segment tokenization of `parse_file`: normalize, split on `~` (falling
back to `'\n'` when the normalized text has no `~` — note the normalized
text no longer contains `'\n'`), then parse each stripped non-empty piece. -/
def tokenize (content : String) : List EDISegment :=
  let c := normalizeContent content
  let parts := if !pyContains c '~' then pySplit '\n' c else pySplit '~' c
  (parts.filter (fun p => pyStrip p ≠ "")).map (fun p => parseSegment (pyStrip p))

/-! ## Structured data model (`parsed_data` and the per-segment dictionaries) -/

/-- The 16-field record built by `_parse_isa`. -/
structure InterchangeControl where
  authorization_qualifier : String
  authorization_info : String
  security_qualifier : String
  security_info : String
  sender_id_qualifier : String
  sender_id : String
  receiver_id_qualifier : String
  receiver_id : String
  date : String
  time : String
  repetition_separator : String
  version : String
  control_number : String
  acknowledgment_requested : String
  usage_indicator : String
  component_separator : String
deriving DecidableEq

/-- The 8-field record built by `_parse_gs`. -/
structure FunctionalGroup where
  functional_id_code : String
  application_sender_code : String
  application_receiver_code : String
  date : String
  time : String
  group_control_number : String
  responsible_agency_code : String
  version : String
deriving DecidableEq

/-- The six fields `_parse_bht` merges into the current transaction set. -/
structure BHTInfo where
  hierarchical_structure_code : String
  transaction_set_purpose_code : String
  reference_identification : String
  date : String
  time : String
  transaction_type_code : String
deriving DecidableEq

/-- A transaction set from `_parse_st`; `bht` records the fields a later
`BHT` segment `update`s into the same dictionary (absent until then). -/
structure TransactionSet where
  transaction_set_id : String
  control_number : String
  bht : Option BHTInfo
deriving DecidableEq

/-- The name dictionary built by `_parse_nm1`. -/
structure NameInfo where
  entity_type_code : String
  entity_type_description : String
  entity_type_qualifier : String
  name_last_or_organization : String
  name_first : String
  name_middle : String
  name_prefix : String
  name_suffix : String
  id_code_qualifier : String
  id_code : String
deriving DecidableEq

/-- One `qualifier:code` pair appended by `_parse_hi`. -/
structure DiagnosisCode where
  qualifier : String
  code : String
deriving DecidableEq

/-- One service line appended by `_parse_sv1`. -/
structure ServiceLine where
  procedure_code : String
  charge_amount : String
  unit_of_measure : String
  service_unit_count : String
  place_of_service : String
deriving DecidableEq

/-- The claim dictionary built by `_parse_clm`. -/
structure Claim where
  claim_id : String
  claim_amount : String
  place_of_service : String
  provider_signature_indicator : String
  assignment_plan_participation : String
  benefits_assignment_indicator : String
  release_of_information_code : String
  diagnosis_codes : List DiagnosisCode
  service_lines : List ServiceLine
deriving DecidableEq

/-- The `parsed_data` dictionary after `_extract_structured_data`;
`interchange_control = none` models the initial empty dict `{}`. -/
structure ParsedData where
  interchange_control : Option InterchangeControl
  functional_groups : List FunctionalGroup
  transaction_sets : List TransactionSet
  claims : List Claim
  providers : List NameInfo
  subscribers : List NameInfo
  patients : List NameInfo
deriving DecidableEq

/-- The fresh `parsed_data` set at the top of `_extract_structured_data`. -/
def emptyParsedData : ParsedData :=
  { interchange_control := none, functional_groups := [], transaction_sets := [],
    claims := [], providers := [], subscribers := [], patients := [] }

/-- The `entity_types` lookup table of `__init__`. -/
def entityTypes (code : String) : Option String :=
  if code = "40" then some "Receiver"
  else if code = "41" then some "Submitter"
  else if code = "85" then some "Billing Provider"
  else if code = "87" then some "Pay-to Provider"
  else if code = "IL" then some "Insured or Subscriber"
  else if code = "QC" then some "Patient"
  else if code = "PR" then some "Payer"
  else if code = "DN" then some "Referring Provider"
  else if code = "P3" then some "Primary Care Provider"
  else if code = "82" then some "Rendering Provider"
  else none

/-- `self.entity_types.get(entity_type, f'Unknown ({entity_type})')`. -/
def entityTypeDesc (code : String) : String :=
  match entityTypes code with
  | some d => d
  | none => "Unknown (" ++ code ++ ")"

/-- Python `segment.elements[i] if len(segment.elements) > i else ''`. -/
def elt (els : List String) (i : Nat) : String := els.getD i ""

/-- Replace the element at index `i` (models in-place mutation of the
dictionary object the cursor aliases). -/
def listModify : List α → Nat → (α → α) → List α
  | [], _, _ => []
  | a :: t, 0, f => f a :: t
  | a :: t, n + 1, f => a :: listModify t n f

/-! ## Per-segment rules (`_parse_isa` … `_parse_sv1`) -/

/-- The record `_parse_isa` stores when the ISA segment has ≥ 16 elements. -/
def mkInterchange (els : List String) : InterchangeControl :=
  { authorization_qualifier := elt els 0, authorization_info := elt els 1,
    security_qualifier := elt els 2, security_info := elt els 3,
    sender_id_qualifier := elt els 4, sender_id := elt els 5,
    receiver_id_qualifier := elt els 6, receiver_id := elt els 7,
    date := elt els 8, time := elt els 9, repetition_separator := elt els 10,
    version := elt els 11, control_number := elt els 12,
    acknowledgment_requested := elt els 13, usage_indicator := elt els 14,
    component_separator := elt els 15 }

/-- `_parse_isa`: populate `interchange_control` iff ≥ 16 elements. -/
def parseIsa (pd : ParsedData) (seg : EDISegment) : ParsedData :=
  if 16 ≤ seg.elements.length then
    { pd with interchange_control := some (mkInterchange seg.elements) }
  else pd

/-- `_parse_gs`: append a functional group iff ≥ 8 elements. -/
def parseGs (pd : ParsedData) (seg : EDISegment) : ParsedData :=
  if 8 ≤ seg.elements.length then
    { pd with functional_groups := pd.functional_groups ++
        [{ functional_id_code := elt seg.elements 0,
           application_sender_code := elt seg.elements 1,
           application_receiver_code := elt seg.elements 2,
           date := elt seg.elements 3, time := elt seg.elements 4,
           group_control_number := elt seg.elements 5,
           responsible_agency_code := elt seg.elements 6,
           version := elt seg.elements 7 }] }
  else pd

/-- The name dictionary of `_parse_nm1` (guarded fields use `elt`). -/
def mkNameInfo (els : List String) : NameInfo :=
  { entity_type_code := elt els 0,
    entity_type_description := entityTypeDesc (elt els 0),
    entity_type_qualifier := elt els 1,
    name_last_or_organization := elt els 2,
    name_first := elt els 3,
    name_middle := elt els 4,
    name_prefix := elt els 5,
    name_suffix := elt els 6,
    id_code_qualifier := elt els 7,
    id_code := elt els 8 }

/-- `_parse_nm1`: with ≥ 3 elements, classify by the entity-type code into
exactly one of the provider / subscriber / patient buckets, or drop. -/
def parseNm1 (pd : ParsedData) (seg : EDISegment) : ParsedData :=
  if 3 ≤ seg.elements.length then
    let entity_type := elt seg.elements 0
    let info := mkNameInfo seg.elements
    if entity_type ∈ ["85", "87", "DN", "P3", "82"] then
      { pd with providers := pd.providers ++ [info] }
    else if entity_type = "IL" then
      { pd with subscribers := pd.subscribers ++ [info] }
    else if entity_type = "QC" then
      { pd with patients := pd.patients ++ [info] }
    else pd
  else pd

/-- The claim dictionary of `_parse_clm` (≥ 2 elements guaranteed by the
caller; positions 4–8 use the guarded access). -/
def mkClaim (els : List String) : Claim :=
  { claim_id := elt els 0, claim_amount := elt els 1,
    place_of_service := elt els 4,
    provider_signature_indicator := elt els 5,
    assignment_plan_participation := elt els 6,
    benefits_assignment_indicator := elt els 7,
    release_of_information_code := elt els 8,
    diagnosis_codes := [], service_lines := [] }

/-- The service-line dictionary of `_parse_sv1`. -/
def mkServiceLine (els : List String) : ServiceLine :=
  { procedure_code := elt els 0, charge_amount := elt els 1,
    unit_of_measure := elt els 2, service_unit_count := elt els 3,
    place_of_service := elt els 4 }

/-- `_parse_hi` body: for each non-empty element containing `:`, split on
the first `:` into qualifier and code. -/
def hiCodes (els : List String) : List DiagnosisCode :=
  els.filterMap (fun e =>
    if e ≠ "" ∧ pyContains e ':' then
      some { qualifier := (pySplitOnce ':' e).1, code := (pySplitOnce ':' e).2 }
    else none)

/-! ## Segment classifier (`_extract_structured_data`) -/

/-- The mutable context of the single extraction pass: the accumulated
`parsed_data` plus the `current_transaction` / `current_claim` cursors as
indices into the corresponding lists (the Python cursors are references to
the most recently appended dictionaries).  The `current_hierarchy_level`
variable of the source is assigned by `HL` segments but never read, so it
is not modelled. -/
structure ExtractState where
  pd : ParsedData
  currentTransaction : Option Nat
  currentClaim : Option Nat
deriving DecidableEq

/-- Initial extraction state (fresh `parsed_data`, both cursors `None`). -/
def initExtract : ExtractState :=
  { pd := emptyParsedData, currentTransaction := none, currentClaim := none }

/-- One iteration of the `_extract_structured_data` loop, dispatching on
the segment tag.  `ST`/`CLM` unconditionally reassign their cursor (to
`none` when the segment is too short, since `_parse_st`/`_parse_clm`
return `None` then); `BHT`/`HI`/`SV1` mutate the dictionary their cursor
aliases, modelled by `listModify` at the cursor index. -/
def extractStep (st : ExtractState) (seg : EDISegment) : ExtractState :=
  if seg.tag = "ISA" then { st with pd := parseIsa st.pd seg }
  else if seg.tag = "GS" then { st with pd := parseGs st.pd seg }
  else if seg.tag = "ST" then
    if 2 ≤ seg.elements.length then
      let newTs : TransactionSet :=
        { transaction_set_id := elt seg.elements 0,
          control_number := elt seg.elements 1, bht := none }
      { st with
        pd := { st.pd with transaction_sets := st.pd.transaction_sets ++ [newTs] },
        currentTransaction := some st.pd.transaction_sets.length }
    else { st with currentTransaction := none }
  else if seg.tag = "BHT" then
    if 6 ≤ seg.elements.length then
      match st.currentTransaction with
      | some i =>
        let bhtInfo : BHTInfo :=
          { hierarchical_structure_code := elt seg.elements 0,
            transaction_set_purpose_code := elt seg.elements 1,
            reference_identification := elt seg.elements 2,
            date := elt seg.elements 3, time := elt seg.elements 4,
            transaction_type_code := elt seg.elements 5 }
        let ts := listModify st.pd.transaction_sets i (fun t => { t with bht := some bhtInfo })
        { st with pd := { st.pd with transaction_sets := ts } }
      | none => st
    else st
  else if seg.tag = "NM1" then { st with pd := parseNm1 st.pd seg }
  else if seg.tag = "CLM" then
    if 2 ≤ seg.elements.length then
      let cl := st.pd.claims ++ [mkClaim seg.elements]
      { st with pd := { st.pd with claims := cl },
                currentClaim := some st.pd.claims.length }
    else { st with currentClaim := none }
  else if seg.tag = "HL" then st
  else if seg.tag = "DTP" then st
  else if seg.tag = "HI" then
    match st.currentClaim with
    | some i =>
      if 1 ≤ seg.elements.length then
        let cl := listModify st.pd.claims i (fun c =>
          { c with diagnosis_codes := c.diagnosis_codes ++ hiCodes seg.elements })
        { st with pd := { st.pd with claims := cl } }
      else st
    | none => st
  else if seg.tag = "SV1" then
    match st.currentClaim with
    | some i =>
      if 2 ≤ seg.elements.length then
        let cl := listModify st.pd.claims i (fun c =>
          { c with service_lines := c.service_lines ++ [mkServiceLine seg.elements] })
        { st with pd := { st.pd with claims := cl } }
      else st
    | none => st
  else st

/-- `_extract_structured_data`: single left-to-right pass over the
tokenized segments. -/
def extractData (segs : List EDISegment) : ParsedData :=
  (segs.foldl extractStep initExtract).pd

/-! ## Parser instance state and `parse_file` -/

/-- The mutable state of an `EDI837Parser` instance: `self.segments`,
`self.parsed_data`, `self.errors` (the read-only lookup tables are
modelled as the standalone functions above). -/
structure ParserState where
  segments : List EDISegment
  parsed_data : ParsedData
  errors : List String
deriving DecidableEq

/-- The state set up by `EDI837Parser.__init__` (the initial empty
`parsed_data` dict is modelled by `emptyParsedData`). -/
def initParser : ParserState :=
  { segments := [], parsed_data := emptyParsedData, errors := [] }

/-- The dictionary returned by `parse_file`.  The display-oriented
`segments` / `detailed_segments` projections (trivial re-renderings of the
raw segment list) are represented by the segment list itself. -/
structure DecodeResult where
  success : Bool
  data : Option ParsedData
  segments : List EDISegment
  error : Option String
  errors : List String
deriving DecidableEq

/-- `parse_file` on a parser instance: tokenize and append the new
segments to `self.segments` (the list is never reset), rebuild
`parsed_data` from all accumulated segments, and return the result
dictionary.  The `try/except` wrapper of the source is not represented:
every operation `parse_file` performs on a text input is total, so the
`except` branch (`success=False`) is unreachable for string inputs. -/
def parseFileS (st : ParserState) (content : String) : ParserState × DecodeResult :=
  let segs := st.segments ++ tokenize content
  let pd := extractData segs
  ({ segments := segs, parsed_data := pd, errors := st.errors },
   { success := true, data := some pd, segments := segs, error := none,
     errors := st.errors })

/-- The `decode(text)` entry point of the spec: every caller in the
repository (`app.py` routes, the CLI scripts) constructs a fresh
`EDI837Parser()` and calls `parse_file` once on it. -/
def decode (content : String) : DecodeResult := (parseFileS initParser content).2

/-! ## Python `float()` model

`get_data_summary` converts monetary strings with the builtin `float()`
inside `try/except`.  `pyFloat?` models it on ordinary decimal notation
(optional sign, integer/fraction digits, optional exponent, surrounding
whitespace), returning `none` where `float()` raises `ValueError`.  IEEE
rounding is abstracted: values are exact rationals.  The exotic inputs
`inf`/`nan` and digit-group underscores are not modelled; no monetary
claim depends on them. -/

/-- Check that every character is an ASCII digit. -/
def digitsOk (cs : List Char) : Bool := cs.all (fun c => c.isDigit)

/-- Numeric value of a digit string (0 when empty). -/
def digitsVal (cs : List Char) : Nat :=
  cs.foldl (fun a c => 10 * a + (c.toNat - 48)) 0

/-- Python `float(s)`, returning `none` instead of raising. -/
def pyFloat? (s : String) : Option ℚ :=
  let t := stripList s.toList
  let signed : ℚ × List Char :=
    match t with
    | '+' :: r => (1, r)
    | '-' :: r => (-1, r)
    | r => (1, r)
  let mant := signed.2.takeWhile (fun c => c ≠ 'e' ∧ c ≠ 'E')
  let erest := signed.2.dropWhile (fun c => c ≠ 'e' ∧ c ≠ 'E')
  let ipart := mant.takeWhile (fun c => c ≠ '.')
  let fpart := (mant.dropWhile (fun c => c ≠ '.')).tail
  if ¬ (digitsOk ipart ∧ digitsOk fpart) ∨ (ipart = [] ∧ fpart = []) then none
  else
    let base : ℚ := (digitsVal ipart : ℚ) + (digitsVal fpart : ℚ) / (10 : ℚ) ^ fpart.length
    match erest with
    | [] => some (signed.1 * base)
    | _ :: ex =>
      let esigned : Bool × List Char :=
        match ex with
        | '+' :: r => (true, r)
        | '-' :: r => (false, r)
        | r => (true, r)
      if esigned.2 = [] ∨ ¬ digitsOk esigned.2 then none
      else
        let mag : ℚ := (10 : ℚ) ^ digitsVal esigned.2
        some (signed.1 * base * (if esigned.1 then mag else mag⁻¹))

/-! ## Statistics aggregator (`get_data_summary`) -/

/-- The per-procedure accumulator entry of `procedure_amounts`. -/
structure ProcEntry where
  total_amount : ℚ
  count : Nat
  code_type : String
  description : String
deriving DecidableEq

/-- Association-list lookup (Python `dict` access by key; the dicts built
by `get_data_summary` preserve insertion order). -/
def lookupKey : List (String × β) → String → Option β
  | [], _ => none
  | (a, b) :: t, k => if a = k then some b else lookupKey t k

/-- The static `procedure_descriptions` table of `get_data_summary`. -/
def procedureDescriptions (code : String) : Option String :=
  match code with
  | "99213" => some "Office/Outpatient Visit - Est Patient (15 min)"
  | "99214" => some "Office/Outpatient Visit - Est Patient (25 min)"
  | "99215" => some "Office/Outpatient Visit - Est Patient (40 min)"
  | "99203" => some "Office/Outpatient Visit - New Patient (30 min)"
  | "99204" => some "Office/Outpatient Visit - New Patient (45 min)"
  | "99205" => some "Office/Outpatient Visit - New Patient (60 min)"
  | "99212" => some "Office/Outpatient Visit - Est Patient (10 min)"
  | "99211" => some "Office/Outpatient Visit - Est Patient (5 min)"
  | "85025" => some "Complete Blood Count (CBC) with Differential"
  | "80053" => some "Comprehensive Metabolic Panel"
  | "85027" => some "Complete Blood Count (CBC)"
  | "36415" => some "Venipuncture for Blood Collection"
  | "81001" => some "Urinalysis"
  | "85610" => some "Prothrombin Time (PT)"
  | "85730" => some "Partial Thromboplastin Time (PTT)"
  | "71020" => some "Chest X-ray, 2 views"
  | "73060" => some "Knee X-ray, 2 views"
  | "74177" => some "CT Abdomen and Pelvis with Contrast"
  | "72148" => some "MRI Lumbar Spine without Contrast"
  | "76700" => some "Abdominal Ultrasound"
  | "45378" => some "Diagnostic Colonoscopy"
  | "43239" => some "Upper Endoscopy (EGD)"
  | "12001" => some "Simple Repair of Superficial Wounds"
  | "29881" => some "Arthroscopy, Knee"
  | "58661" => some "Laparoscopy, Surgical"
  | "G0439" => some "Annual Wellness Visit"
  | "G0438" => some "Annual Wellness Visit - Initial"
  | "Q0091" => some "Screening Papanicolaou Smear"
  | "G0202" => some "Screening Mammography"
  | "J3420" => some "Injection, Vitamin B-12"
  | "A4253" => some "Blood Glucose Test Strips"
  | "E0110" => some "Crutches, Forearm"
  | "L3806" => some "Wrist Hand Finger Orthosis"
  | _ => none

/-- `procedure_descriptions.get(main_code, f'Procedure Code {main_code}')`. -/
def procDescription (code : String) : String :=
  (procedureDescriptions code).getD ("Procedure Code " ++ code)

/-- Split a procedure code on its first `:` into (code type, main code),
else code type `"UNKNOWN"` and the whole value as main code — the
`proc_code.split(':', 1)` branch of `get_data_summary`. -/
def splitProcCode (s : String) : String × String :=
  if pyContains s ':' then pySplitOnce ':' s else ("UNKNOWN", s)

/-- The charge a service line contributes: its parsed `charge_amount`, or
0 when the field is empty (falsy) or `float()` would raise. -/
def effectiveCharge (sl : ServiceLine) : ℚ :=
  if sl.charge_amount ≠ "" then (pyFloat? sl.charge_amount).getD 0 else 0

/-- In-place update of the (unique) entry with key `k` in an
insertion-ordered dict (Python `d[k] = f(d[k])`). -/
def updateAt : List (String × β) → String → (β → β) → List (String × β)
  | [], _, _ => []
  | (a, b) :: t, k, f => if a = k then (a, f b) :: t else (a, b) :: updateAt t k f

/-- Increment-or-insert on an insertion-ordered counting dict
(`d[k] = d.get(k, 0) + 1`). -/
def updateCount (l : List (String × Nat)) (k : String) : List (String × Nat) :=
  if (lookupKey l k).isSome then updateAt l k (fun n => n + 1) else l ++ [(k, 1)]

/-- Add `amt` to the running total of an entry and `n` to its count. -/
def bumpEntry (e : ProcEntry) (amt : ℚ) (n : Nat) : ProcEntry :=
  { e with total_amount := e.total_amount + amt, count := e.count + n }

/-- A fresh `procedure_amounts` entry for key `k` with code type `ct`. -/
def newEntry (k ct : String) (amt : ℚ) (n : Nat) : ProcEntry :=
  { total_amount := amt, count := n, code_type := ct,
    description := procDescription k }

/-- Accumulate one occurrence with charge `amt` into `procedure_amounts`:
the source inserts a zero entry when the key is absent (recording the code
type and description of this first occurrence) and then adds `amt` and
bumps the count, so an absent key nets an entry with `(amt, 1)`. -/
def updateProcAmounts (l : List (String × ProcEntry)) (key code_type : String)
    (amt : ℚ) : List (String × ProcEntry) :=
  if (lookupKey l key).isSome then updateAt l key (fun e => bumpEntry e amt 1)
  else l ++ [(key, newEntry key code_type amt 1)]

/-- The running accumulators of the claim/service-line loop of
`get_data_summary`. -/
structure AmountAcc where
  total_claim_amount : ℚ
  total_service_amount : ℚ
  service_lines_count : Nat
  procedure_amounts : List (String × ProcEntry)
  procedure_counts : List (String × Nat)
deriving DecidableEq

/-- The inner service-line iteration of `get_data_summary`. -/
def svcStep (acc : AmountAcc) (sl : ServiceLine) : AmountAcc :=
  let charge := effectiveCharge sl
  let acc1 := { acc with
    service_lines_count := acc.service_lines_count + 1,
    total_service_amount := acc.total_service_amount + charge }
  if sl.procedure_code ≠ "" then
    let tm := splitProcCode sl.procedure_code
    { acc1 with
      procedure_amounts := updateProcAmounts acc1.procedure_amounts tm.2 tm.1 charge,
      procedure_counts := updateCount acc1.procedure_counts tm.2 }
  else acc1

/-- The outer claim iteration of `get_data_summary`: add the parseable
claim amount (an empty/falsy or unparseable amount contributes nothing),
then walk the claim's service lines. -/
def claimStep (acc : AmountAcc) (c : Claim) : AmountAcc :=
  let acc1 :=
    if c.claim_amount ≠ "" then
      match pyFloat? c.claim_amount with
      | some v => { acc with total_claim_amount := acc.total_claim_amount + v }
      | none => acc
    else acc
  c.service_lines.foldl svcStep acc1

/-- The whole claim/service-line accumulation loop. -/
def amountFold (claims : List Claim) : AmountAcc :=
  claims.foldl claimStep ⟨0, 0, 0, [], []⟩

/-- Comparison used for `top_by_amount`: Python's stable
`sorted(key=total_amount, reverse=True)` equals a stable merge sort with
`le a b := key b ≤ key a` (ties keep their original relative order in
both). -/
def leAmount (a b : String × ProcEntry) : Bool :=
  b.2.total_amount ≤ a.2.total_amount

/-- Comparison used for `top_by_frequency` (key `count`, descending). -/
def leCount (a b : String × ProcEntry) : Bool :=
  b.2.count ≤ a.2.count

/-- The fields of the dictionary `get_data_summary` returns (flattened:
`counts`/`amounts`/`details`/`coverage`/`procedure_analysis` keys become
fields). -/
structure Summary where
  total_claims : Nat
  total_providers : Nat
  total_subscribers : Nat
  total_patients : Nat
  total_segments : Nat
  total_service_lines : Nat
  unique_procedures : Nat
  unique_diagnoses : Nat
  total_procedures : Nat
  total_elements : Nat
  populated_elements : Nat
  total_claim_amount : ℚ
  total_service_amount : ℚ
  average_claim_amount : ℚ
  population_rate : ℚ
  by_amount : List (String × ProcEntry)
  top_by_amount : List (String × ProcEntry)
  top_by_frequency : List (String × ProcEntry)
  provider_types : List (String × Nat)
  procedure_codes : List (String × Nat)
  segment_distribution : List (String × Nat)
  diagnosis_codes : List String
  sender_id : String
  receiver_id : String
  interchange_date : String
  version : String
deriving DecidableEq

/-- `get_data_summary`, as a pure function of the structured record and
the tokenized segment list.  `list(set(...))` (Python set order is
implementation-defined; the spec says order is not significant) is
modelled by `List.dedup`; only its length feeds a claim. -/
def getDataSummary (pd : ParsedData) (segments : List EDISegment) : Summary :=
  let acc := amountFold pd.claims
  let diag := pd.claims.flatMap (fun c =>
    (c.diagnosis_codes.filter (fun d => d.code ≠ "")).map (fun d => d.code))
  let cov := segments.foldl (fun (a : Nat × Nat) s =>
    (a.1 + s.elements.length, a.2 + s.elements.countP (fun el => pyStrip el ≠ ""))) (0, 0)
  { total_claims := pd.claims.length,
    total_providers := pd.providers.length,
    total_subscribers := pd.subscribers.length,
    total_patients := pd.patients.length,
    total_segments := segments.length,
    total_service_lines := acc.service_lines_count,
    unique_procedures := acc.procedure_counts.length,
    unique_diagnoses := diag.dedup.length,
    total_procedures := acc.procedure_amounts.length,
    total_elements := cov.1,
    populated_elements := cov.2,
    total_claim_amount := acc.total_claim_amount,
    total_service_amount := acc.total_service_amount,
    average_claim_amount :=
      if 0 < pd.claims.length then acc.total_claim_amount / (pd.claims.length : ℚ) else 0,
    population_rate :=
      if 0 < cov.1 then ((cov.2 : ℚ) / (cov.1 : ℚ)) * 100 else 0,
    by_amount := acc.procedure_amounts,
    top_by_amount := (acc.procedure_amounts.mergeSort leAmount).take 10,
    top_by_frequency := (acc.procedure_amounts.mergeSort leCount).take 10,
    provider_types := pd.providers.foldl (fun l p => updateCount l p.entity_type_description) [],
    procedure_codes := acc.procedure_counts,
    segment_distribution := segments.foldl (fun l s => updateCount l s.tag) [],
    diagnosis_codes := diag.dedup,
    sender_id := (pd.interchange_control.map (fun i => i.sender_id)).getD "",
    receiver_id := (pd.interchange_control.map (fun i => i.receiver_id)).getD "",
    interchange_date := (pd.interchange_control.map (fun i => i.date)).getD "",
    version := (pd.interchange_control.map (fun i => i.version)).getD "" }

/-! ## Specification-side vocabulary for the summary claims -/

/-- All service lines of a record, in document order (claims in order,
each claim's lines in order) — the iteration order of `get_data_summary`. -/
def allServiceLines (pd : ParsedData) : List ServiceLine :=
  pd.claims.flatMap (fun c => c.service_lines)

/-- The main procedure code of a service line per the spec's splitting
rule. -/
def mainCode (sl : ServiceLine) : String := (splitProcCode sl.procedure_code).2

/-- The service lines with a non-empty procedure code whose main code is
`k`, in encounter order.  The non-empty restriction mirrors the
`if proc_code:` guard of `get_data_summary` (line 602): a service line
with an empty procedure code is skipped by the procedure analysis
entirely, which refutes the unrestricted every-ServiceLine reading. -/
def matchingLines (k : String) (ls : List ServiceLine) : List ServiceLine :=
  ls.filter (fun sl => sl.procedure_code ≠ "" ∧ mainCode sl = k)

/-- The effect of one service line on the `procedure_amounts` dict alone
(the `procedure_amounts` projection of `svcStep`). -/
def procStep (l : List (String × ProcEntry)) (sl : ServiceLine) : List (String × ProcEntry) :=
  if sl.procedure_code ≠ "" then
    updateProcAmounts l (splitProcCode sl.procedure_code).2
      (splitProcCode sl.procedure_code).1 (effectiveCharge sl)
  else l

/-- Keys in first-encounter order (the insertion order of a Python dict
filled left to right). -/
def firstOccurrences (ks : List String) : List String :=
  ks.foldl (fun acc k => if k ∈ acc then acc else acc ++ [k]) []

/-- The claim a `CLM e` segment followed by one `HI h` and one `SV1 v`
segment is expected to produce: the `CLM` fields with exactly the
diagnosis codes of the `HI` and the single service line of the `SV1`. -/
def builtClaim (e h v : List String) : Claim :=
  { mkClaim e with diagnosis_codes := hiCodes h, service_lines := [mkServiceLine v] }

/-! ## Helper lemmas about the extraction step -/

lemma listModify_id : ∀ (l : List α) (i : Nat), listModify l i (fun a => a) = l
  | [], _ => rfl
  | _ :: _, 0 => rfl
  | a :: t, n + 1 => by simp [listModify, listModify_id t n]

lemma listModify_append_length : ∀ (l : List α) (a : α) (f : α → α),
    listModify (l ++ [a]) l.length f = l ++ [f a]
  | [], _, _ => rfl
  | b :: t, a, f => by simp [listModify, listModify_append_length t a f]

lemma extractStep_clm (st : ExtractState) (els : List String) (r : String)
    (h : 2 ≤ els.length) :
    extractStep st ⟨"CLM", els, r⟩ =
      { st with pd := { st.pd with claims := st.pd.claims ++ [mkClaim els] },
                currentClaim := some st.pd.claims.length } := by
  simp [extractStep, h]

lemma extractStep_clm_short (st : ExtractState) (els : List String) (r : String)
    (h : els.length < 2) :
    extractStep st ⟨"CLM", els, r⟩ = { st with currentClaim := none } := by
  have hn : ¬ 2 ≤ els.length := by omega
  simp [extractStep, hn]

lemma extractStep_st_short (st : ExtractState) (els : List String) (r : String)
    (h : els.length < 2) :
    extractStep st ⟨"ST", els, r⟩ = { st with currentTransaction := none } := by
  have hn : ¬ 2 ≤ els.length := by omega
  simp [extractStep, hn]

lemma extractStep_bht_noCursor (st : ExtractState) (els : List String) (r : String)
    (hc : st.currentTransaction = none) :
    extractStep st ⟨"BHT", els, r⟩ = st := by
  simp [extractStep, hc]

lemma extractStep_hi (st : ExtractState) (els : List String) (r : String) (i : Nat)
    (hc : st.currentClaim = some i) :
    extractStep st ⟨"HI", els, r⟩ =
      { st with pd := { st.pd with claims := listModify st.pd.claims i (fun c =>
          { c with diagnosis_codes := c.diagnosis_codes ++ hiCodes els }) } } := by
  cases els with
  | nil =>
    have h1 : (fun c : Claim =>
        { c with diagnosis_codes := c.diagnosis_codes ++ hiCodes [] }) = fun c => c := by
      funext c; simp [hiCodes]
    rcases st with ⟨pd, ct, cc⟩
    simp only at hc
    subst hc
    simp [extractStep, h1, listModify_id]
  | cons a t =>
    have h2 : 1 ≤ (a :: t).length := by simp
    simp [extractStep, hc, h2]

lemma extractStep_hi_noCursor (st : ExtractState) (els : List String) (r : String)
    (hc : st.currentClaim = none) :
    extractStep st ⟨"HI", els, r⟩ = st := by
  simp [extractStep, hc]

lemma extractStep_sv1 (st : ExtractState) (els : List String) (r : String) (i : Nat)
    (hc : st.currentClaim = some i) (h : 2 ≤ els.length) :
    extractStep st ⟨"SV1", els, r⟩ =
      { st with pd := { st.pd with claims := listModify st.pd.claims i (fun c =>
          { c with service_lines := c.service_lines ++ [mkServiceLine els] }) } } := by
  simp [extractStep, hc, h]

lemma extractStep_sv1_noCursor (st : ExtractState) (els : List String) (r : String)
    (hc : st.currentClaim = none) :
    extractStep st ⟨"SV1", els, r⟩ = st := by
  simp [extractStep, hc]

lemma parseIsa_claims (pd : ParsedData) (seg : EDISegment) :
    (parseIsa pd seg).claims = pd.claims := by
  unfold parseIsa; split <;> rfl

lemma parseGs_claims (pd : ParsedData) (seg : EDISegment) :
    (parseGs pd seg).claims = pd.claims := by
  unfold parseGs; split <;> rfl

lemma parseNm1_claims (pd : ParsedData) (seg : EDISegment) :
    (parseNm1 pd seg).claims = pd.claims := by
  simp only [parseNm1]; split_ifs <;> rfl

/-- A segment that is not a `CLM` neither appends a claim nor opens the
claim cursor (when it is closed): `HI`/`SV1` data arriving with no open
claim is silently discarded. -/
lemma extractStep_claims_stable (st : ExtractState) (seg : EDISegment)
    (hC : seg.tag ≠ "CLM") (hc : st.currentClaim = none) :
    (extractStep st seg).pd.claims = st.pd.claims ∧
      (extractStep st seg).currentClaim = none := by
  simp only [extractStep, hc]
  split_ifs <;>
    cases htr : st.currentTransaction <;>
      simp_all [parseIsa_claims, parseGs_claims, parseNm1_claims]

lemma foldl_claims_stable : ∀ (segs : List EDISegment) (st : ExtractState),
    (∀ s ∈ segs, s.tag ≠ "CLM") → st.currentClaim = none →
    (segs.foldl extractStep st).pd.claims = st.pd.claims ∧
      (segs.foldl extractStep st).currentClaim = none
  | [], st, _, hc => ⟨rfl, hc⟩
  | a :: t, st, h, hc => by
    have h1 := extractStep_claims_stable st a (h a (by simp)) hc
    have h2 := foldl_claims_stable t (extractStep st a)
      (fun s hs => h s (by simp [hs])) h1.2
    exact ⟨h2.1.trans h1.1, h2.2⟩

/-- Running a `CLM` segment followed by one `HI` and one `SV1` appends a
single claim carrying exactly that segment data, whatever came before. -/
lemma clm_hi_sv1_block (st : ExtractState) (e h v : List String)
    (r1 r2 r3 : String) (he : 2 ≤ e.length) (hv : 2 ≤ v.length) :
    List.foldl extractStep st
        [⟨"CLM", e, r1⟩, ⟨"HI", h, r2⟩, ⟨"SV1", v, r3⟩] =
      { st with pd := { st.pd with claims := st.pd.claims ++ [builtClaim e h v] },
                currentClaim := some st.pd.claims.length } := by
  simp only [List.foldl_cons, List.foldl_nil]
  rw [extractStep_clm st e r1 he]
  rw [extractStep_hi _ h r2 st.pd.claims.length rfl]
  rw [extractStep_sv1 _ v r3 st.pd.claims.length rfl hv]
  simp [listModify_append_length, mkClaim, builtClaim]

/-- A state used to witness discarding in the presence of an earlier,
successfully constructed claim and transaction set. -/
def priorTs : TransactionSet :=
  { transaction_set_id := "837", control_number := "0001", bht := none }

def priorPd : ParsedData :=
  { emptyParsedData with claims := [mkClaim ["A", "100"]], transaction_sets := [priorTs] }

def priorClaimState : ExtractState :=
  { pd := priorPd, currentTransaction := some 0, currentClaim := some 0 }

/-- A concrete service line, claim and record used by summary witnesses. -/
def demoLine : ServiceLine :=
  { procedure_code := "HC:99213", charge_amount := "40", unit_of_measure := "UN",
    service_unit_count := "1", place_of_service := "" }

def demoClaim : Claim :=
  { mkClaim ["26463774", "100"] with service_lines := [demoLine] }

def demoPd : ParsedData :=
  { emptyParsedData with claims := [demoClaim] }

/-- A service line whose procedure code is empty (as produced by an
`SV1**40` segment), and a record holding it: the input on which the
`if proc_code:` guard of `get_data_summary` skips the procedure
analysis. -/
def emptyCodeLine : ServiceLine :=
  { procedure_code := "", charge_amount := "40", unit_of_measure := "",
    service_unit_count := "", place_of_service := "" }

def emptyCodeClaim : Claim :=
  { mkClaim ["X", "100"] with service_lines := [emptyCodeLine] }

def emptyCodePd : ParsedData :=
  { emptyParsedData with claims := [emptyCodeClaim] }

/-! ## Claim theorems -/

/-- C1: a `CLM` segment followed by one `HI` and one `SV1` before the next
`CLM` (or end of document) yields a claim containing exactly those
diagnosis codes and service lines; the codes and lines attach to the most
recently constructed claim, and `HI`/`SV1` data appearing before any `CLM`
appears in no claim of the record (the first claim of the result carries
only its own segments' data). -/
theorem hi_sv1_attach_to_most_recent_claim
    (pre : List EDISegment) (e1 h1 v1 e2 h2 v2 : List String)
    (r1 r2 r3 r4 r5 r6 : String)
    (hpre : ∀ s ∈ pre, s.tag ≠ "CLM")
    (he1 : 2 ≤ e1.length) (hv1 : 2 ≤ v1.length)
    (he2 : 2 ≤ e2.length) (hv2 : 2 ≤ v2.length) :
    (extractData (pre ++ [⟨"CLM", e1, r1⟩, ⟨"HI", h1, r2⟩, ⟨"SV1", v1, r3⟩,
        ⟨"CLM", e2, r4⟩, ⟨"HI", h2, r5⟩, ⟨"SV1", v2, r6⟩])).claims =
      [builtClaim e1 h1 v1, builtClaim e2 h2 v2] := by
  obtain ⟨hcl, hcc⟩ := foldl_claims_stable pre initExtract hpre rfl
  unfold extractData
  have hsp : (pre ++ [⟨"CLM", e1, r1⟩, ⟨"HI", h1, r2⟩, ⟨"SV1", v1, r3⟩,
        ⟨"CLM", e2, r4⟩, ⟨"HI", h2, r5⟩, ⟨"SV1", v2, r6⟩] : List EDISegment) =
      (pre ++ [⟨"CLM", e1, r1⟩, ⟨"HI", h1, r2⟩, ⟨"SV1", v1, r3⟩]) ++
        [⟨"CLM", e2, r4⟩, ⟨"HI", h2, r5⟩, ⟨"SV1", v2, r6⟩] := by simp
  rw [hsp, List.foldl_append, List.foldl_append]
  rw [clm_hi_sv1_block _ e1 h1 v1 r1 r2 r3 he1 hv1]
  rw [clm_hi_sv1_block _ e2 h2 v2 r4 r5 r6 he2 hv2]
  have hcl0 : (List.foldl extractStep initExtract pre).pd.claims = [] := hcl.trans rfl
  simp [hcl0]

/-- Witness for C1: an `HI` and an `SV1` precede the first `CLM` (their
data lands in no claim), then two CLM/HI/SV1 blocks each produce exactly
their own claim. -/
theorem hi_sv1_attach_to_most_recent_claim_witness :
    (extractData [⟨"HI", ["BK:111"], "HI*BK:111"⟩, ⟨"SV1", ["HC:2", "7"], "SV1*HC:2*7"⟩,
        ⟨"CLM", ["A", "100"], "CLM*A*100"⟩, ⟨"HI", ["BK:0340", "BF:V7389"], "HI*BK:0340*BF:V7389"⟩,
        ⟨"SV1", ["HC:99213", "40"], "SV1*HC:99213*40"⟩,
        ⟨"CLM", ["B", "50"], "CLM*B*50"⟩, ⟨"HI", [], "HI"⟩, ⟨"SV1", ["HC:1", "5"], "SV1*HC:1*5"⟩]).claims =
      [builtClaim ["A", "100"] ["BK:0340", "BF:V7389"] ["HC:99213", "40"],
       builtClaim ["B", "50"] [] ["HC:1", "5"]] :=
  hi_sv1_attach_to_most_recent_claim
    [⟨"HI", ["BK:111"], "HI*BK:111"⟩, ⟨"SV1", ["HC:2", "7"], "SV1*HC:2*7"⟩]
    ["A", "100"] ["BK:0340", "BF:V7389"] ["HC:99213", "40"]
    ["B", "50"] [] ["HC:1", "5"]
    "CLM*A*100" "HI*BK:0340*BF:V7389" "SV1*HC:99213*40" "CLM*B*50" "HI" "SV1*HC:1*5"
    (by decide) (by decide) (by decide) (by decide) (by decide)

/-- C2 (code evaluation): the claimed newline fallback does not happen —
with no `~` in the input, the two newline-separated segments `ST*A` and
`BHT*B` are merged into the single segment `ST*ABHT*B` because the
normalization step removed the line break before `split('\n')` ran. -/
theorem newline_fallback_merges_lines :
    tokenize "ST*A\nBHT*B" = [⟨"ST", ["ABHT", "B"], "ST*ABHT*B"⟩] := by decide

/-- C3: decoding the same text twice yields structurally equal results.
Every caller constructs a fresh parser per decode, so each decode starts
from empty `segments`/`errors`; the result then depends on nothing else in
the instance state (in particular not on any leftover `parsed_data`), so a
second decode of the same text is not affected by the first. -/
theorem decode_repeatable (s : String) (st₁ st₂ : ParserState)
    (h1 : st₁.segments = []) (h2 : st₂.segments = [])
    (e1 : st₁.errors = []) (e2 : st₂.errors = []) :
    (parseFileS st₁ s).2 = (parseFileS st₂ s).2 := by
  rcases st₁ with ⟨sg1, pd1, er1⟩
  rcases st₂ with ⟨sg2, pd2, er2⟩
  simp only at h1 h2 e1 e2
  subst h1; subst h2; subst e1; subst e2
  rfl

/-- Witness for C3: a first decode of a claim document, and a second
decode on a fresh instance whose stale `parsed_data` happens to hold the
first result, return the same result. -/
theorem decode_repeatable_witness :
    (parseFileS initParser "CLM*A*100~HI*BK:0340").2 =
      (parseFileS ⟨[], extractData (tokenize "CLM*A*100~HI*BK:0340"), []⟩
        "CLM*A*100~HI*BK:0340").2 :=
  decode_repeatable "CLM*A*100~HI*BK:0340" initParser
    ⟨[], extractData (tokenize "CLM*A*100~HI*BK:0340"), []⟩ rfl rfl rfl rfl

/-- C4: `decode` always returns a result with `success = true`, no error
message and a record.  The embedded pipeline is total on text input — no
operation `parse_file` performs on a string can raise — so the `except`
branch (`success=false`) is unreachable, and in particular inputs that
merely lack expected fields are not errors. -/
theorem decode_always_succeeds (s : String) (st : ParserState) :
    (decode s).success = true ∧ (decode s).error = none ∧
      (decode s).data = some (extractData (tokenize s)) ∧
      ((parseFileS st s).2).success = true ∧ ((parseFileS st s).2).error = none :=
  ⟨rfl, rfl, rfl, rfl, rfl⟩

/-- C7: an `NM1` segment with ≥ 3 elements is bucketed by its entity-type
code — `85` appends to providers only, `IL` to subscribers only, `QC` to
patients only, and a code matching none of the classification codes
appends to none of the three buckets. -/
theorem nm1_bucket_classification (st : ExtractState) (seg : EDISegment)
    (htag : seg.tag = "NM1") (hlen : 3 ≤ seg.elements.length) :
    (elt seg.elements 0 = "85" →
      (extractStep st seg).pd.providers = st.pd.providers ++ [mkNameInfo seg.elements] ∧
      (extractStep st seg).pd.subscribers = st.pd.subscribers ∧
      (extractStep st seg).pd.patients = st.pd.patients) ∧
    (elt seg.elements 0 = "IL" →
      (extractStep st seg).pd.subscribers = st.pd.subscribers ++ [mkNameInfo seg.elements] ∧
      (extractStep st seg).pd.providers = st.pd.providers ∧
      (extractStep st seg).pd.patients = st.pd.patients) ∧
    (elt seg.elements 0 = "QC" →
      (extractStep st seg).pd.patients = st.pd.patients ++ [mkNameInfo seg.elements] ∧
      (extractStep st seg).pd.providers = st.pd.providers ∧
      (extractStep st seg).pd.subscribers = st.pd.subscribers) ∧
    (elt seg.elements 0 ∉ (["85", "87", "DN", "P3", "82", "IL", "QC"] : List String) →
      (extractStep st seg).pd.providers = st.pd.providers ∧
      (extractStep st seg).pd.subscribers = st.pd.subscribers ∧
      (extractStep st seg).pd.patients = st.pd.patients) := by
  have hstep : extractStep st seg = { st with pd := parseNm1 st.pd seg } := by
    simp [extractStep, htag]
  refine ⟨fun h => ?_, fun h => ?_, fun h => ?_, fun h => ?_⟩
  · simp [hstep, parseNm1, hlen, h]
  · simp [hstep, parseNm1, hlen, h]
  · simp [hstep, parseNm1, hlen, h]
  · simp only [List.mem_cons, List.mem_singleton, not_or] at h
    obtain ⟨h85, h87, hDN, hP3, h82, hIL, hQC, -⟩ := h
    simp [hstep, parseNm1, hlen, h85, h87, hDN, hP3, h82, hIL, hQC]

/-- Witness for C7: the unrecognized code `ZZ` lands in none of the three
buckets. -/
theorem nm1_bucket_classification_witness :
    (extractStep initExtract ⟨"NM1", ["ZZ", "1", "DOE"], "NM1*ZZ*1*DOE"⟩).pd.providers = [] ∧
    (extractStep initExtract ⟨"NM1", ["ZZ", "1", "DOE"], "NM1*ZZ*1*DOE"⟩).pd.subscribers = [] ∧
    (extractStep initExtract ⟨"NM1", ["ZZ", "1", "DOE"], "NM1*ZZ*1*DOE"⟩).pd.patients = [] :=
  (nm1_bucket_classification initExtract ⟨"NM1", ["ZZ", "1", "DOE"], "NM1*ZZ*1*DOE"⟩
    rfl (by decide)).2.2.2 (by decide)

/-- C10: a `CLM` segment with fewer than 2 elements resets the claim
cursor to unset (leaving the record untouched), so `HI`/`SV1` segments
that follow are silently discarded even when an earlier constructed claim
exists; likewise a short `ST` resets the transaction cursor and a
following `BHT` is discarded. -/
theorem short_clm_st_reset_cursors (st : ExtractState)
    (cS hS vS sS bS : EDISegment)
    (hct : cS.tag = "CLM") (hclen : cS.elements.length < 2)
    (hht : hS.tag = "HI") (hvt : vS.tag = "SV1")
    (hstt : sS.tag = "ST") (hslen : sS.elements.length < 2)
    (hbt : bS.tag = "BHT") :
    (extractStep st cS).currentClaim = none ∧
    (extractStep st cS).pd = st.pd ∧
    (extractStep (extractStep st cS) hS).pd.claims = st.pd.claims ∧
    (extractStep (extractStep st cS) vS).pd.claims = st.pd.claims ∧
    (extractStep st sS).currentTransaction = none ∧
    (extractStep st sS).pd = st.pd ∧
    (extractStep (extractStep st sS) bS).pd.transaction_sets = st.pd.transaction_sets := by
  rcases cS with ⟨ct, cels, cr⟩
  rcases hS with ⟨ht, hels, hr⟩
  rcases vS with ⟨vt, vels, vr⟩
  rcases sS with ⟨stg, sels, sr⟩
  rcases bS with ⟨bt, bels, br⟩
  simp only at hct hht hvt hstt hbt
  subst hct; subst hht; subst hvt; subst hstt; subst hbt
  rw [extractStep_clm_short st cels cr hclen]
  rw [extractStep_hi_noCursor _ hels hr rfl]
  rw [extractStep_sv1_noCursor _ vels vr rfl]
  rw [extractStep_st_short st sels sr hslen]
  rw [extractStep_bht_noCursor _ bels br rfl]
  exact ⟨rfl, rfl, rfl, rfl, rfl, rfl, rfl⟩

lemma parseGs_ic (pd : ParsedData) (seg : EDISegment) :
    (parseGs pd seg).interchange_control = pd.interchange_control := by
  unfold parseGs; split <;> rfl

lemma parseNm1_ic (pd : ParsedData) (seg : EDISegment) :
    (parseNm1 pd seg).interchange_control = pd.interchange_control := by
  simp only [parseNm1]; split_ifs <;> rfl

/-- Only an `ISA` segment with ≥ 16 elements touches the interchange
control; every other step preserves it. -/
lemma extractStep_ic (st : ExtractState) (seg : EDISegment) :
    (extractStep st seg).pd.interchange_control =
      if seg.tag = "ISA" ∧ 16 ≤ seg.elements.length then some (mkInterchange seg.elements)
      else st.pd.interchange_control := by
  by_cases hISA : seg.tag = "ISA"
  · have hstep : extractStep st seg = { st with pd := parseIsa st.pd seg } := by
      simp [extractStep, hISA]
    by_cases h16 : 16 ≤ seg.elements.length
    · rw [if_pos ⟨hISA, h16⟩, hstep]
      simp [parseIsa, h16]
    · rw [if_neg (by simp [h16]), hstep]
      simp [parseIsa, h16]
  · rw [if_neg (by simp [hISA])]
    by_cases hGS : seg.tag = "GS"
    · simp [extractStep, hGS, parseGs_ic]
    by_cases hST : seg.tag = "ST"
    · by_cases hl : 2 ≤ seg.elements.length <;> simp [extractStep, hST, hl]
    by_cases hBHT : seg.tag = "BHT"
    · by_cases hl : 6 ≤ seg.elements.length <;>
        cases htr : st.currentTransaction <;> simp [extractStep, hBHT, hl, htr]
    by_cases hNM1 : seg.tag = "NM1"
    · simp [extractStep, hNM1, parseNm1_ic]
    by_cases hCLM : seg.tag = "CLM"
    · by_cases hl : 2 ≤ seg.elements.length <;> simp [extractStep, hCLM, hl]
    by_cases hHL : seg.tag = "HL"
    · simp [extractStep, hHL]
    by_cases hDTP : seg.tag = "DTP"
    · simp [extractStep, hDTP]
    by_cases hHI : seg.tag = "HI"
    · cases hcc : st.currentClaim <;>
        [skip; by_cases hl : 1 ≤ seg.elements.length] <;>
        simp [extractStep, hHI, hcc, *]
    by_cases hSV1 : seg.tag = "SV1"
    · cases hcc : st.currentClaim <;>
        [skip; by_cases hl : 2 ≤ seg.elements.length] <;>
        simp [extractStep, hSV1, hcc, *]
    simp [extractStep, hISA, hGS, hST, hBHT, hNM1, hCLM, hHL, hDTP, hHI, hSV1]

lemma ic_foldl : ∀ (segs : List EDISegment) (st : ExtractState),
    ((segs.foldl extractStep st).pd.interchange_control ≠ none) ↔
      (st.pd.interchange_control ≠ none ∨
        ∃ seg ∈ segs, seg.tag = "ISA" ∧ 16 ≤ seg.elements.length)
  | [], st => by simp
  | a :: t, st => by
    have hstep := extractStep_ic st a
    by_cases h : a.tag = "ISA" ∧ 16 ≤ a.elements.length
    · rw [List.foldl_cons, ic_foldl t, hstep, if_pos h]
      simp only [List.mem_cons]
      constructor
      · intro _; right; exact ⟨a, Or.inl rfl, h⟩
      · intro _; left; simp
    · rw [List.foldl_cons, ic_foldl t, hstep, if_neg h]
      simp only [List.mem_cons]
      constructor
      · rintro (hic | ⟨s, hs, hq⟩)
        · exact Or.inl hic
        · exact Or.inr ⟨s, Or.inr hs, hq⟩
      · rintro (hic | ⟨s, hs, hq⟩)
        · exact Or.inl hic
        · rcases hs with rfl | hs
          · exact absurd hq h
          · exact Or.inr ⟨s, hs, hq⟩

/-- C8: decode succeeds on every input, and the record's interchange
control is populated iff some tokenized `ISA` segment carries at least 16
elements — in particular an input whose `ISA` has fewer than 16 elements
leaves it empty, with no error. -/
theorem isa_populated_iff (s : String) :
    (decode s).success = true ∧
    (decode s).data = some (extractData (tokenize s)) ∧
    ((extractData (tokenize s)).interchange_control ≠ none ↔
      ∃ seg ∈ tokenize s, seg.tag = "ISA" ∧ 16 ≤ seg.elements.length) := by
  refine ⟨rfl, rfl, ?_⟩
  unfold extractData
  rw [ic_foldl]
  simp [initExtract, emptyParsedData]

lemma pyFloat_empty : pyFloat? "" = none := rfl

lemma tca_svcFold : ∀ (lines : List ServiceLine) (acc : AmountAcc),
    (lines.foldl svcStep acc).total_claim_amount = acc.total_claim_amount
  | [], _ => rfl
  | l :: t, acc => by
    rw [List.foldl_cons, tca_svcFold t]
    simp only [svcStep]
    split_ifs <;> rfl

lemma tca_claimFold : ∀ (cs : List Claim) (acc : AmountAcc),
    (cs.foldl claimStep acc).total_claim_amount =
      acc.total_claim_amount + (cs.map (fun c => (pyFloat? c.claim_amount).getD 0)).sum
  | [], acc => by simp
  | c :: t, acc => by
    have hstep : (claimStep acc c).total_claim_amount =
        acc.total_claim_amount + (pyFloat? c.claim_amount).getD 0 := by
      have h0 : claimStep acc c = c.service_lines.foldl svcStep
          (if c.claim_amount ≠ "" then
            (match pyFloat? c.claim_amount with
             | some v => { acc with total_claim_amount := acc.total_claim_amount + v }
             | none => acc)
          else acc) := rfl
      rw [h0, tca_svcFold]
      by_cases hne : c.claim_amount = ""
      · rw [if_neg (by simp [hne]), hne, pyFloat_empty]
        simp
      · rw [if_pos hne]
        cases hp : pyFloat? c.claim_amount <;> simp [hp]
    rw [List.foldl_cons, tca_claimFold t, hstep]
    simp only [List.map_cons, List.sum_cons]
    ring

/-- C5: the summary's total claim amount is the sum of the parseable
claim amounts (an empty or unparseable amount contributes 0, without
error), and the average is that total over the claim count, 0 when there
are no claims. -/
theorem total_and_average_claim_amount (pd : ParsedData) (segs : List EDISegment) :
    (getDataSummary pd segs).total_claim_amount =
      (pd.claims.map (fun c => (pyFloat? c.claim_amount).getD 0)).sum ∧
    (getDataSummary pd segs).average_claim_amount =
      (if 0 < pd.claims.length then
        (pd.claims.map (fun c => (pyFloat? c.claim_amount).getD 0)).sum / (pd.claims.length : ℚ)
      else 0) := by
  have h3 : (amountFold pd.claims).total_claim_amount =
      (pd.claims.map (fun c => (pyFloat? c.claim_amount).getD 0)).sum := by
    unfold amountFold; rw [tca_claimFold]; simp
  exact ⟨h3, by rw [show (getDataSummary pd segs).average_claim_amount =
    (if 0 < pd.claims.length then
      (amountFold pd.claims).total_claim_amount / (pd.claims.length : ℚ) else 0) from rfl, h3]⟩

lemma covFold_spec : ∀ (segs : List EDISegment) (a : Nat × Nat),
    segs.foldl (fun (a : Nat × Nat) s =>
        (a.1 + s.elements.length, a.2 + s.elements.countP (fun el => pyStrip el ≠ ""))) a =
      (a.1 + (segs.map (fun s => s.elements.length)).sum,
       a.2 + (segs.map (fun s => s.elements.countP (fun el => pyStrip el ≠ ""))).sum)
  | [], a => by simp
  | s :: t, a => by
    rw [List.foldl_cons, covFold_spec t]
    simp [Nat.add_assoc]

/-- C9: the coverage metric counts all elements and the non-blank ones
across all tokenized segments, the population rate is their quotient times
100, and a document with zero elements yields rate 0 (no division by
zero). -/
theorem coverage_population_rate (pd : ParsedData) (segs : List EDISegment) :
    (getDataSummary pd segs).total_elements = (segs.map (fun s => s.elements.length)).sum ∧
    (getDataSummary pd segs).populated_elements =
      (segs.map (fun s => s.elements.countP (fun el => pyStrip el ≠ ""))).sum ∧
    (getDataSummary pd segs).population_rate =
      (if 0 < (getDataSummary pd segs).total_elements then
        (((getDataSummary pd segs).populated_elements : ℚ) /
          ((getDataSummary pd segs).total_elements : ℚ)) * 100
      else 0) ∧
    ((segs.map (fun s => s.elements.length)).sum = 0 →
      (getDataSummary pd segs).population_rate = 0) := by
  have hc : segs.foldl (fun (a : Nat × Nat) s =>
        (a.1 + s.elements.length, a.2 + s.elements.countP (fun el => pyStrip el ≠ ""))) (0, 0) =
      ((segs.map (fun s => s.elements.length)).sum,
       (segs.map (fun s => s.elements.countP (fun el => pyStrip el ≠ ""))).sum) := by
    rw [covFold_spec]; simp
  have hT : (getDataSummary pd segs).total_elements =
      (segs.map (fun s => s.elements.length)).sum := by
    show (segs.foldl (fun (a : Nat × Nat) s =>
      (a.1 + s.elements.length, a.2 + s.elements.countP (fun el => pyStrip el ≠ ""))) (0, 0)).1 = _
    rw [hc]
  have hP : (getDataSummary pd segs).populated_elements =
      (segs.map (fun s => s.elements.countP (fun el => pyStrip el ≠ ""))).sum := by
    show (segs.foldl (fun (a : Nat × Nat) s =>
      (a.1 + s.elements.length, a.2 + s.elements.countP (fun el => pyStrip el ≠ ""))) (0, 0)).2 = _
    rw [hc]
  have hR : (getDataSummary pd segs).population_rate =
      (if 0 < (getDataSummary pd segs).total_elements then
        (((getDataSummary pd segs).populated_elements : ℚ) /
          ((getDataSummary pd segs).total_elements : ℚ)) * 100
      else 0) := rfl
  refine ⟨hT, hP, hR, fun h0 => ?_⟩
  rw [hR, hT, if_neg (by omega)]

/-! ## Lemmas for the procedure analysis -/

lemma lookupKey_isSome_iff : ∀ (l : List (String × β)) (k : String),
    (lookupKey l k).isSome ↔ k ∈ l.map Prod.fst
  | [], k => by simp [lookupKey]
  | (a, b) :: t, k => by
    by_cases h : a = k
    · simp [lookupKey, h]
    · simp [lookupKey, h, lookupKey_isSome_iff t k, Ne.symm h]

lemma lookupKey_append : ∀ (l₁ l₂ : List (String × β)) (k : String),
    lookupKey (l₁ ++ l₂) k =
      match lookupKey l₁ k with
      | some v => some v
      | none => lookupKey l₂ k
  | [], l₂, k => by simp [lookupKey]
  | (a, b) :: t, l₂, k => by
    by_cases h : a = k
    · simp [lookupKey, h]
    · simp [lookupKey, h, lookupKey_append t l₂ k]

lemma lookupKey_updateAt : ∀ (l : List (String × β)) (key k : String) (f : β → β),
    lookupKey (updateAt l key f) k =
      if k = key then (lookupKey l k).map f else lookupKey l k
  | [], key, k, f => by by_cases h : k = key <;> simp [updateAt, lookupKey, h]
  | (a, b) :: t, key, k, f => by
    by_cases hakey : a = key
    · subst hakey
      by_cases hak : a = k
      · subst hak
        simp [updateAt, lookupKey]
      · simp [updateAt, lookupKey, hak, Ne.symm hak]
    · by_cases hak : a = k
      · subst hak
        simp [updateAt, lookupKey, hakey, Ne.symm hakey]
      · simp [updateAt, lookupKey, hakey, hak, lookupKey_updateAt t key k f]

lemma map_fst_updateAt : ∀ (l : List (String × β)) (key : String) (f : β → β),
    (updateAt l key f).map Prod.fst = l.map Prod.fst
  | [], _, _ => rfl
  | (a, b) :: t, key, f => by
    by_cases h : a = key <;> simp [updateAt, h, map_fst_updateAt t key f]

lemma pa_svcStep (acc : AmountAcc) (sl : ServiceLine) :
    (svcStep acc sl).procedure_amounts = procStep acc.procedure_amounts sl := by
  unfold svcStep procStep
  split_ifs <;> rfl

lemma pa_svcFold : ∀ (lines : List ServiceLine) (acc : AmountAcc),
    (lines.foldl svcStep acc).procedure_amounts =
      lines.foldl procStep acc.procedure_amounts
  | [], _ => rfl
  | l :: t, acc => by
    rw [List.foldl_cons, List.foldl_cons, pa_svcFold t, pa_svcStep]

lemma pa_claimStep (acc : AmountAcc) (c : Claim) :
    (claimStep acc c).procedure_amounts =
      c.service_lines.foldl procStep acc.procedure_amounts := by
  have h0 : claimStep acc c = c.service_lines.foldl svcStep
      (if c.claim_amount ≠ "" then
        (match pyFloat? c.claim_amount with
         | some v => { acc with total_claim_amount := acc.total_claim_amount + v }
         | none => acc)
      else acc) := rfl
  rw [h0, pa_svcFold]
  congr 1
  split_ifs
  · cases pyFloat? c.claim_amount <;> rfl
  · rfl

lemma pa_claimFold : ∀ (cs : List Claim) (acc : AmountAcc),
    (cs.foldl claimStep acc).procedure_amounts =
      (cs.flatMap (fun c => c.service_lines)).foldl procStep acc.procedure_amounts
  | [], _ => rfl
  | c :: t, acc => by
    rw [List.foldl_cons, pa_claimFold t, List.flatMap_cons, List.foldl_append, pa_claimStep]

lemma matchingLines_cons (k : String) (sl : ServiceLine) (t : List ServiceLine) :
    matchingLines k (sl :: t) =
      if sl.procedure_code ≠ "" ∧ mainCode sl = k then sl :: matchingLines k t
      else matchingLines k t := by
  by_cases h : sl.procedure_code ≠ "" ∧ mainCode sl = k <;> simp [matchingLines, h]

lemma procStep_skip (l : List (String × ProcEntry)) (sl : ServiceLine)
    (hpc : sl.procedure_code = "") : procStep l sl = l := by
  simp [procStep, hpc]

lemma procStep_hit (l : List (String × ProcEntry)) (sl : ServiceLine) (k : String)
    (hpc : sl.procedure_code ≠ "") (hk : mainCode sl = k)
    (hs : (lookupKey l k).isSome) :
    procStep l sl = updateAt l k (fun e => bumpEntry e (effectiveCharge sl) 1) := by
  unfold procStep updateProcAmounts
  rw [if_pos hpc, show (splitProcCode sl.procedure_code).2 = k from hk, if_pos hs]

lemma procStep_new (l : List (String × ProcEntry)) (sl : ServiceLine) (k : String)
    (hpc : sl.procedure_code ≠ "") (hk : mainCode sl = k)
    (hs : ¬ (lookupKey l k).isSome) :
    procStep l sl =
      l ++ [(k, newEntry k (splitProcCode sl.procedure_code).1 (effectiveCharge sl) 1)] := by
  unfold procStep updateProcAmounts
  rw [if_pos hpc, show (splitProcCode sl.procedure_code).2 = k from hk, if_neg hs]

lemma bumpEntry_bumpEntry (e : ProcEntry) (a b : ℚ) (m n : Nat) :
    bumpEntry (bumpEntry e a m) b n = bumpEntry e (a + b) (m + n) := by
  simp only [bumpEntry]
  rw [add_assoc, Nat.add_assoc]

lemma bumpEntry_newEntry (k ct : String) (a b : ℚ) (m n : Nat) :
    bumpEntry (newEntry k ct a m) b n = newEntry k ct (a + b) (m + n) := by
  simp only [bumpEntry, newEntry]

lemma bumpEntry_zero (e : ProcEntry) : bumpEntry e 0 0 = e := by
  simp [bumpEntry]

/-- Folding service lines over a key already present accumulates exactly
the matching lines' count and charges onto that entry (its code type and
description are kept). -/
lemma lookup_procFold_some : ∀ (ls : List ServiceLine) (l : List (String × ProcEntry))
    (k : String) (e : ProcEntry), lookupKey l k = some e →
    lookupKey (ls.foldl procStep l) k =
      some (bumpEntry e ((matchingLines k ls).map effectiveCharge).sum
        (matchingLines k ls).length)
  | [], l, k, e, h => by simp [matchingLines, h, bumpEntry_zero]
  | sl :: t, l, k, e, h => by
    rw [List.foldl_cons]
    by_cases hpc : sl.procedure_code = ""
    · rw [procStep_skip l sl hpc, lookup_procFold_some t l k e h, matchingLines_cons]
      simp [hpc]
    · by_cases hk : mainCode sl = k
      · have hl2 : lookupKey (procStep l sl) k =
            some (bumpEntry e (effectiveCharge sl) 1) := by
          rw [procStep_hit l sl k hpc hk (by simp [h]), lookupKey_updateAt, if_pos rfl, h]
          rfl
        rw [lookup_procFold_some t _ k _ hl2, matchingLines_cons]
        rw [if_pos ⟨hpc, hk⟩]
        simp only [List.map_cons, List.sum_cons, List.length_cons, bumpEntry_bumpEntry]
        rw [add_comm (matchingLines k t).length 1]
      · have hl2 : lookupKey (procStep l sl) k = some e := by
          unfold procStep updateProcAmounts
          rw [if_pos hpc]
          by_cases hs : (lookupKey l (splitProcCode sl.procedure_code).2).isSome
          · rw [if_pos hs, lookupKey_updateAt,
              if_neg (fun hkk => hk hkk.symm), h]
          · rw [if_neg hs, lookupKey_append, h]
        rw [lookup_procFold_some t _ k e hl2, matchingLines_cons]
        simp [hk]

/-- Folding service lines over an absent key creates the entry at the
first matching line (recording that line's code type and the standard
description) and accumulates the matching lines' count and charges. -/
lemma lookup_procFold_none : ∀ (ls : List ServiceLine) (l : List (String × ProcEntry))
    (k : String), lookupKey l k = none →
    lookupKey (ls.foldl procStep l) k =
      (match matchingLines k ls with
       | [] => none
       | m :: _ => some (newEntry k (splitProcCode m.procedure_code).1
          ((matchingLines k ls).map effectiveCharge).sum (matchingLines k ls).length))
  | [], l, k, h => by simp [matchingLines, h]
  | sl :: t, l, k, h => by
    rw [List.foldl_cons]
    by_cases hpc : sl.procedure_code = ""
    · rw [procStep_skip l sl hpc, lookup_procFold_none t l k h, matchingLines_cons]
      simp [hpc]
    · by_cases hk : mainCode sl = k
      · have hl2 : lookupKey (procStep l sl) k =
            some (newEntry k (splitProcCode sl.procedure_code).1 (effectiveCharge sl) 1) := by
          rw [procStep_new l sl k hpc hk (by simp [h]), lookupKey_append, h]
          simp [lookupKey]
        rw [lookup_procFold_some t _ k _ hl2, matchingLines_cons, if_pos ⟨hpc, hk⟩]
        simp only [List.map_cons, List.sum_cons, List.length_cons, bumpEntry_newEntry]
        rw [add_comm (matchingLines k t).length 1]
      · have hl2 : lookupKey (procStep l sl) k = none := by
          unfold procStep updateProcAmounts
          rw [if_pos hpc]
          by_cases hs : (lookupKey l (splitProcCode sl.procedure_code).2).isSome
          · rw [if_pos hs, lookupKey_updateAt,
              if_neg (fun hkk => hk hkk.symm), h]
          · rw [if_neg hs, lookupKey_append, h]
            have hne : ¬ (splitProcCode sl.procedure_code).2 = k := fun hkk => hk hkk
            simp [lookupKey, hne]
        rw [lookup_procFold_none t _ k hl2, matchingLines_cons]
        simp [hk]

/-- The keys of the accumulated `procedure_amounts` are the main codes in
first-encounter order. -/
lemma keys_procFold : ∀ (ls : List ServiceLine) (l : List (String × ProcEntry)),
    (ls.foldl procStep l).map Prod.fst =
      ((ls.filter (fun sl => sl.procedure_code ≠ "")).map mainCode).foldl
        (fun acc k => if k ∈ acc then acc else acc ++ [k]) (l.map Prod.fst)
  | [], l => by simp
  | sl :: t, l => by
    rw [List.foldl_cons]
    by_cases hpc : sl.procedure_code = ""
    · rw [procStep_skip l sl hpc, keys_procFold t l]
      simp [hpc]
    · have hkeys : (procStep l sl).map Prod.fst =
          (if mainCode sl ∈ l.map Prod.fst then l.map Prod.fst
           else l.map Prod.fst ++ [mainCode sl]) := by
        by_cases hs : (lookupKey l (mainCode sl)).isSome
        · rw [procStep_hit l sl (mainCode sl) hpc rfl hs, map_fst_updateAt,
            if_pos ((lookupKey_isSome_iff l (mainCode sl)).mp hs)]
        · rw [procStep_new l sl (mainCode sl) hpc rfl hs,
            if_neg (fun hm => hs ((lookupKey_isSome_iff l (mainCode sl)).mpr hm))]
          simp
      rw [keys_procFold t (procStep l sl), hkeys]
      simp [hpc]

lemma leAmount_trans : ∀ (a b c : String × ProcEntry),
    leAmount a b → leAmount b c → leAmount a c := by
  intro a b c hab hbc
  simp only [leAmount, decide_eq_true_eq] at hab hbc ⊢
  exact le_trans hbc hab

lemma leAmount_total : ∀ (a b : String × ProcEntry), leAmount a b || leAmount b a := by
  intro a b
  simp only [leAmount, Bool.or_eq_true, decide_eq_true_eq]
  exact le_total _ _

lemma leCount_trans : ∀ (a b c : String × ProcEntry),
    leCount a b → leCount b c → leCount a c := by
  intro a b c hab hbc
  simp only [leCount, decide_eq_true_eq] at hab hbc ⊢
  exact le_trans hbc hab

lemma leCount_total : ∀ (a b : String × ProcEntry), leCount a b || leCount b a := by
  intro a b
  simp only [leCount, Bool.or_eq_true, decide_eq_true_eq]
  exact Nat.le_total _ _

/-- Stability of the stable merge sort, filter form: the elements of any
tie class (where the comparison holds both ways) appear in the sorted list
exactly in their original order. -/
lemma filter_mergeSort_ties (le : α → α → Bool) (p : α → Bool)
    (trans : ∀ (a b c : α), le a b → le b c → le a c)
    (total : ∀ (a b : α), le a b || le b a)
    (hp : ∀ a b, p a = true → p b = true → le a b = true) (l : List α) :
    (l.mergeSort le).filter p = l.filter p := by
  have hperm : ((l.mergeSort le).filter p).Perm (l.filter p) :=
    (List.mergeSort_perm l le).filter p
  have hpw : (l.filter p).Pairwise (fun a b => le a b) := by
    refine List.pairwise_of_forall_mem_list ?_
    intro a ha b hb
    exact hp a b (List.of_mem_filter ha) (List.of_mem_filter hb)
  have hsub : List.Sublist (l.filter p) (l.mergeSort le) :=
    List.sublist_mergeSort trans total hpw (List.filter_sublist l)
  have hself : (l.filter p).filter p = l.filter p := by
    refine List.filter_eq_self.mpr ?_
    intro a ha
    exact List.of_mem_filter ha
  have hsub2 : List.Sublist (l.filter p) ((l.mergeSort le).filter p) := by
    have h2 := hsub.filter p
    rwa [hself] at h2
  exact (hsub2.eq_of_length hperm.length_eq.symm).symm

/-- C6 counterexample: the claim says the procedure analysis processes
every service line into a per-mainCode entry — for a line with empty
procedure code that would be the entry at main code `""` (code type
`"UNKNOWN"`, count 1, total 40).  The `if proc_code:` guard of
`get_data_summary` instead skips such a line: it is counted among the
service lines, yet the analysis dict stays empty and the lookup at its
main code yields nothing. -/
theorem procedure_analysis_skips_empty_code :
    mainCode emptyCodeLine = "" ∧
    (getDataSummary emptyCodePd []).total_service_lines = 1 ∧
    (getDataSummary emptyCodePd []).by_amount = [] ∧
    (getDataSummary emptyCodePd []).total_procedures = 0 ∧
    lookupKey (getDataSummary emptyCodePd []).by_amount (mainCode emptyCodeLine) = none :=
  ⟨rfl, rfl, rfl, rfl, rfl⟩

/-- C6 (amended): the procedure analysis keys every service line with a
non-empty procedure code by the part after the first `:` (the whole code
with type `"UNKNOWN"` when there is no `:`, which is what
`mainCode`/`splitProcCode` compute), accumulating per key the occurrence
count and total charge in first-encounter order — a service line whose
procedure code is empty is skipped by the analysis (see the
counterexample above) — and the two top-10 rankings are the first ten
entries of a stable descending sort by total amount resp. count, ties
staying in first-encounter order (the filter equations). -/
theorem procedure_analysis_correct (pd : ParsedData) (segs : List EDISegment) :
    ((getDataSummary pd segs).by_amount.map Prod.fst =
      firstOccurrences (((allServiceLines pd).filter
        (fun sl => sl.procedure_code ≠ "")).map mainCode)) ∧
    (∀ k, lookupKey (getDataSummary pd segs).by_amount k = none ↔
      matchingLines k (allServiceLines pd) = []) ∧
    (∀ k e, lookupKey (getDataSummary pd segs).by_amount k = some e →
      e.count = (matchingLines k (allServiceLines pd)).length ∧
      e.total_amount = ((matchingLines k (allServiceLines pd)).map effectiveCharge).sum) ∧
    ((getDataSummary pd segs).top_by_amount =
        ((getDataSummary pd segs).by_amount.mergeSort leAmount).take 10 ∧
      (getDataSummary pd segs).top_by_amount.Pairwise
        (fun a b => b.2.total_amount ≤ a.2.total_amount) ∧
      ∀ q : ℚ, ((getDataSummary pd segs).by_amount.mergeSort leAmount).filter
          (fun p => p.2.total_amount = q) =
        (getDataSummary pd segs).by_amount.filter (fun p => p.2.total_amount = q)) ∧
    ((getDataSummary pd segs).top_by_frequency =
        ((getDataSummary pd segs).by_amount.mergeSort leCount).take 10 ∧
      (getDataSummary pd segs).top_by_frequency.Pairwise
        (fun a b => b.2.count ≤ a.2.count) ∧
      ∀ n : Nat, ((getDataSummary pd segs).by_amount.mergeSort leCount).filter
          (fun p => p.2.count = n) =
        (getDataSummary pd segs).by_amount.filter (fun p => p.2.count = n)) := by
  have hP : (getDataSummary pd segs).by_amount = (allServiceLines pd).foldl procStep [] := by
    show (amountFold pd.claims).procedure_amounts = _
    unfold amountFold
    rw [pa_claimFold]
    rfl
  refine ⟨?_, ?_, ?_, ⟨rfl, ?_, ?_⟩, ⟨rfl, ?_, ?_⟩⟩
  · rw [hP, keys_procFold]
    rfl
  · intro k
    rw [hP, lookup_procFold_none (allServiceLines pd) [] k rfl]
    cases hm : matchingLines k (allServiceLines pd) <;> simp [hm]
  · intro k e he
    rw [hP, lookup_procFold_none (allServiceLines pd) [] k rfl] at he
    cases hm : matchingLines k (allServiceLines pd) with
    | nil => rw [hm] at he; simp at he
    | cons m mt =>
      rw [hm] at he
      simp only [Option.some.injEq] at he
      subst he
      exact ⟨rfl, rfl⟩
  · have hpw : ((getDataSummary pd segs).by_amount.mergeSort leAmount).Pairwise
        (fun a b => b.2.total_amount ≤ a.2.total_amount) := by
      refine (List.sorted_mergeSort leAmount_trans leAmount_total _).imp ?_
      intro a b h
      simpa [leAmount] using h
    exact List.Pairwise.sublist (List.take_sublist 10 _) hpw
  · intro q
    refine filter_mergeSort_ties leAmount _ leAmount_trans leAmount_total ?_ _
    intro a b ha hb
    simp only [decide_eq_true_eq] at ha hb
    simp [leAmount, ha, hb]
  · have hpw : ((getDataSummary pd segs).by_amount.mergeSort leCount).Pairwise
        (fun a b => b.2.count ≤ a.2.count) := by
      refine (List.sorted_mergeSort leCount_trans leCount_total _).imp ?_
      intro a b h
      simpa [leCount] using h
    exact List.Pairwise.sublist (List.take_sublist 10 _) hpw
  · intro n
    refine filter_mergeSort_ties leCount _ leCount_trans leCount_total ?_ _
    intro a b ha hb
    simp only [decide_eq_true_eq] at ha hb
    simp [leCount, ha, hb]

/-- Witness for C6: one service line `HC:99213` for 40 produces the single
key `99213` whose entry counts one matching line and its charge. -/
theorem procedure_analysis_correct_witness :
    (getDataSummary demoPd []).by_amount.map Prod.fst =
      firstOccurrences (((allServiceLines demoPd).filter
        (fun sl => sl.procedure_code ≠ "")).map mainCode) ∧
    ((newEntry "99213" "HC" (effectiveCharge demoLine) 1).count =
        (matchingLines "99213" (allServiceLines demoPd)).length ∧
      (newEntry "99213" "HC" (effectiveCharge demoLine) 1).total_amount =
        ((matchingLines "99213" (allServiceLines demoPd)).map effectiveCharge).sum) :=
  ⟨(procedure_analysis_correct demoPd []).1,
   (procedure_analysis_correct demoPd []).2.2.1 "99213"
     (newEntry "99213" "HC" (effectiveCharge demoLine) 1) rfl⟩

/-- Witness for C9: a document of bare-tag segments has zero elements and
population rate 0. -/
theorem coverage_population_rate_witness :
    (getDataSummary emptyParsedData [⟨"SE", [], "SE"⟩, ⟨"GE", [], "GE"⟩]).population_rate = 0 :=
  (coverage_population_rate emptyParsedData [⟨"SE", [], "SE"⟩, ⟨"GE", [], "GE"⟩]).2.2.2 (by decide)

/-- Witness for C10: from a state holding an earlier claim and
transaction set, a short `CLM` / `ST` resets the cursor and the following
`HI`/`SV1`/`BHT` change nothing. -/
theorem short_clm_st_reset_cursors_witness :
    (extractStep priorClaimState ⟨"CLM", ["X"], "CLM*X"⟩).currentClaim = none ∧
    (extractStep priorClaimState ⟨"CLM", ["X"], "CLM*X"⟩).pd = priorClaimState.pd ∧
    (extractStep (extractStep priorClaimState ⟨"CLM", ["X"], "CLM*X"⟩)
      ⟨"HI", ["BK:1"], "HI*BK:1"⟩).pd.claims = priorClaimState.pd.claims ∧
    (extractStep (extractStep priorClaimState ⟨"CLM", ["X"], "CLM*X"⟩)
      ⟨"SV1", ["HC:1", "5"], "SV1*HC:1*5"⟩).pd.claims = priorClaimState.pd.claims ∧
    (extractStep priorClaimState ⟨"ST", ["837"], "ST*837"⟩).currentTransaction = none ∧
    (extractStep priorClaimState ⟨"ST", ["837"], "ST*837"⟩).pd = priorClaimState.pd ∧
    (extractStep (extractStep priorClaimState ⟨"ST", ["837"], "ST*837"⟩)
      ⟨"BHT", ["0019", "00", "1", "2", "3", "4"], "BHT"⟩).pd.transaction_sets =
        priorClaimState.pd.transaction_sets :=
  short_clm_st_reset_cursors priorClaimState
    ⟨"CLM", ["X"], "CLM*X"⟩ ⟨"HI", ["BK:1"], "HI*BK:1"⟩ ⟨"SV1", ["HC:1", "5"], "SV1*HC:1*5"⟩
    ⟨"ST", ["837"], "ST*837"⟩ ⟨"BHT", ["0019", "00", "1", "2", "3", "4"], "BHT"⟩
    rfl (by decide) rfl rfl rfl (by decide) rfl

end EDI
